import Mathlib

set_option linter.unusedVariables false

/- Shallow embedding of the orchestration core of the personal-site backend:
   the chat pipeline in app/services/process_chat_service.py and the completion
   client in app/services/gemini_service.py.  External effects (the generative
   backend, the market-data HTTP provider, the Python json library) are modelled
   as explicit oracle parameters; the repository's own control flow, string
   building, truthiness tests and exception handling are translated directly. -/

/-- JSON-like Python values handled by the service layer. -/
inductive Json where
  | null : Json
  | bool : Bool → Json
  | num : Int → Json
  | str : String → Json
  | arr : List Json → Json
  | obj : List (String × Json) → Json
deriving Repr

/-- Key lookup in a Python dict (association list). -/
def lookupKey (k : String) : List (String × Json) → Option Json
  | [] => none
  | (k2, v) :: rest => if k2 == k then some v else lookupKey k rest

/-- Python exceptions that the orchestration code can raise or catch. -/
inductive PyExn where
  | attributeError : PyExn
  | typeError : PyExn
  | indexError : PyExn
  | keyError : PyExn
  | jsonDecodeError : PyExn
deriving Repr, DecidableEq

/-- Python truthiness of a JSON-like value. -/
def pyTruthy : Json → Bool
  | Json.null => false
  | Json.bool b => b
  | Json.num n => n != 0
  | Json.str s => s != ""
  | Json.arr xs => !xs.isEmpty
  | Json.obj kvs => !kvs.isEmpty

/-- Python truthiness of an optional value (`None` is falsy). -/
def pyTruthyOpt : Option Json → Bool
  | none => false
  | some j => pyTruthy j

/-- Truthiness of the configured credential string (`if not ALPHA_VANTAGE_API_KEY`). -/
def pyKeyTruthy : Option String → Bool
  | none => false
  | some s => s != ""

/-- `x or d` on Python integers: `x` when truthy (non-zero), else `d`. -/
def pyOrInt (x d : Int) : Int := if x != 0 then x else d

/-- `value.get(k)`: key lookup returning `None` when missing; raises
`AttributeError` when the receiver is not a dict. -/
def pyGet (v : Json) (k : String) : Except PyExn (Option Json) :=
  match v with
  | Json.obj kvs => Except.ok (lookupKey k kvs)
  | _ => Except.error PyExn.attributeError

/-- `value.get(k, default)` with an explicit default. -/
def pyGetD (v : Json) (k : String) (d : Json) : Except PyExn Json :=
  match v with
  | Json.obj kvs => Except.ok ((lookupKey k kvs).getD d)
  | _ => Except.error PyExn.attributeError

/-- `value[0]`: first element of a sequence, with Python's exception behavior. -/
def pyIndex0 (v : Json) : Except PyExn Json :=
  match v with
  | Json.arr (x :: _) => Except.ok x
  | Json.arr [] => Except.error PyExn.indexError
  | Json.str s =>
    match s.data with
    | c :: _ => Except.ok (Json.str ⟨[c]⟩)
    | [] => Except.error PyExn.indexError
  | Json.obj _ => Except.error PyExn.keyError
  | _ => Except.error PyExn.typeError

/-- `v == k` between a possibly-`None` Python value and a string literal. -/
def pyEqStr : Option Json → String → Bool
  | some (Json.str s), t => s == t
  | _, _ => false

/-- Whether a character list occurs as a prefix of another. -/
def charsPre : List Char → List Char → Bool
  | [], _ => true
  | _ :: _, [] => false
  | a :: as, b :: bs => a == b && charsPre as bs

/-- Whether a character list occurs contiguously inside another. -/
def charsSub (needle : List Char) : List Char → Bool
  | [] => charsPre needle []
  | c :: rest => charsPre needle (c :: rest) || charsSub needle rest

/-- Python substring test `needle in hay` on strings. -/
def strContainsB (needle hay : String) : Bool := charsSub needle.data hay.data

/-- Python str.strip(): drop whitespace at both ends. -/
def pyStrip (s : String) : String :=
  ⟨((s.data.dropWhile Char.isWhitespace).reverse.dropWhile Char.isWhitespace).reverse⟩

/-- Python str.startswith. -/
def pyStartsWith (s pre : String) : Bool := charsPre pre.data s.data

/-- Python str.endswith. -/
def pyEndsWith (s suf : String) : Bool := charsPre suf.data.reverse s.data.reverse

/-- Drop the first n characters. -/
def pyDrop (s : String) (n : Nat) : String := ⟨s.data.drop n⟩

/-- Drop the last n characters. -/
def pyDropRight (s : String) (n : Nat) : String := ⟨(s.data.reverse.drop n).reverse⟩

/-- Python str.upper(). -/
def pyUpper (s : String) : String := ⟨s.data.map Char.toUpper⟩

/-- Python containment `k in v`: dict keys, list membership, substring. -/
def pyContains (k : String) (v : Json) : Except PyExn Bool :=
  match v with
  | Json.obj kvs => Except.ok (lookupKey k kvs).isSome
  | Json.arr xs => Except.ok (xs.any (fun j =>
      match j with
      | Json.str s => s == k
      | _ => false))
  | Json.str s => Except.ok (strContainsB k s)
  | _ => Except.error PyExn.typeError

/-- Iterating a Python value (`for item in v`): list elements, string characters,
dict keys; raises `TypeError` otherwise. -/
def pyIterate (v : Json) : Except PyExn (List Json) :=
  match v with
  | Json.arr xs => Except.ok xs
  | Json.str s => Except.ok (s.data.map (fun c => Json.str ⟨[c]⟩))
  | Json.obj kvs => Except.ok (kvs.map (fun kv => Json.str kv.1))
  | _ => Except.error PyExn.typeError

/-- Python slicing `v[:3]`. -/
def pySlice3 (v : Json) : Except PyExn (List Json) :=
  match v with
  | Json.arr xs => Except.ok (xs.take 3)
  | Json.str s => Except.ok ((s.data.take 3).map (fun c => Json.str ⟨[c]⟩))
  | _ => Except.error PyExn.typeError

/-- Store a possibly-`None` lookup result as a dict value (`None` prints as null). -/
def jOpt : Option Json → Json
  | none => Json.null
  | some j => j

/-- `response.json()` succeeded or raised a decode error. -/
def liftJson : Except Unit Json → Except PyExn Json
  | Except.ok j => Except.ok j
  | Except.error _ => Except.error PyExn.jsonDecodeError

/-- A Python list comprehension: left-to-right projection of each element,
propagating the first raised exception. -/
def mapMExcept {α β : Type} (f : α → Except PyExn β) : List α → Except PyExn (List β)
  | [] => Except.ok []
  | x :: xs => do
    let y ← f x
    let ys ← mapMExcept f xs
    pure (y :: ys)

/-- One role-tagged chat message, as built by process_chat_service. -/
structure Msg where
  role : String
  content : String
deriving Repr

/-- The parsed shape of one Gemini candidate as probed by GeminiService.chat:
its finish_reason attribute (when it is a string), the text attribute of each
content part (`none` for non-text parts), and truthiness of safety_ratings. -/
structure Candidate where
  finishReason : Option String
  parts : List (Option String)
  safetyRatings : Bool

/-- The shape of a generate_content reply as probed by GeminiService.chat:
the `.text` accessor (`none` when absent, non-string, or raising), the
candidate list, and whether prompt_feedback carries a truthy block_reason. -/
structure GenResponse where
  textAttr : Option String
  candidates : List Candidate
  promptBlocked : Bool

/-- Outcome of the external generate_content call: an exception or a reply. -/
inductive GenOutcome where
  | exn : GenOutcome
  | ok : GenResponse → GenOutcome

/-- The Gemini completion client: configuration state plus oracles for the two
external capabilities (text generation and native token counting; a counting
result of `none` covers both an exception and a missing total attribute). -/
structure Gemini where
  clientReady : Bool
  generateContent : Option String → String → Rat → Int → GenOutcome
  countTokensNative : String → Option Int

def notConfiguredMsg : String := "Gemini API is not configured. Set GEMINI_API_KEY and restart."

def safetyMsg : String := "Sorry, I can’t respond to that request due to safety policies. Please try rephrasing."

def defaultEmptyMsg : String := "I\x27m sorry, I didn\x27t understand that. Can you rephrase?"

def adminErrMsg : String := "Sorry, something went wrong. Please contact the administrator."

/-- `isinstance(finish_reason, str) and finish_reason.upper() == "SAFETY"`. -/
def finishSafety (c : Candidate) : Bool :=
  match c.finishReason with
  | some fr => pyUpper fr == "SAFETY"
  | none => false

/-- The prompt_feedback fallback at the end of GeminiService.chat. -/
def extractPromptFeedback (resp : GenResponse) : String :=
  if resp.promptBlocked then safetyMsg else defaultEmptyMsg

/-- The joined-and-stripped text assembled from a candidate's text parts
(the `out` / `text` locals of GeminiService.chat). -/
def candidateText (c : Candidate) : String :=
  pyStrip (String.join (c.parts.filterMap (fun t =>
    match t with
    | some s => if s != "" then some s else none
    | none => none)))

/-- The candidates → content.parts probing flow of GeminiService.chat. -/
def extractCandidates (resp : GenResponse) : String :=
  match resp.candidates with
  | [] => extractPromptFeedback resp
  | first :: _ =>
    let fromParts : Option String :=
      if !first.parts.isEmpty then
        if candidateText first != "" then some (candidateText first) else none
      else none
    match fromParts with
    | some text => text
    | none =>
      if first.safetyRatings || finishSafety first then safetyMsg
      else extractPromptFeedback resp

/-- Full reply-introspection of GeminiService.chat: `.text` if a non-blank
string, else candidates, else safety/prompt_feedback, else the default. -/
def extractText (resp : GenResponse) : String :=
  match resp.textAttr with
  | some s => if pyStrip s != "" then s else extractCandidates resp
  | none => extractCandidates resp

/-- The try-block of GeminiService.chat: an exception from the backend is
caught and becomes the fixed administrator message. -/
def chatTry : GenOutcome → String
  | GenOutcome.exn => adminErrMsg
  | GenOutcome.ok resp => extractText resp

/-- `system_prompt = "\n\n".join(system_parts) if system_parts else None`. -/
def systemPromptOf (messages : List Msg) : Option String :=
  let system_parts := (messages.filter (fun m => m.role == "system")).map (fun m => m.content)
  if !system_parts.isEmpty then some (String.intercalate "\n\n" system_parts) else none

/-- `prompt = "\n\n".join(user_messages)`. -/
def promptOf (messages : List Msg) : String :=
  String.intercalate "\n\n" ((messages.filter (fun m => m.role == "user")).map (fun m => m.content))

/-- GeminiService.chat: returns a fixed message when unconfigured, otherwise
dispatches the backend reply through the introspection flow; never raises. -/
def Gemini.chat (g : Gemini) (messages : List Msg) (temperature : Rat) (maxTokens : Int) : String :=
  if !g.clientReady then notConfiguredMsg
  else chatTry (g.generateContent (systemPromptOf messages) (promptOf messages) temperature maxTokens)

/-- `text or ""` on Python strings. -/
def pyOrStr (s d : String) : String := if s != "" then s else d

/-- GeminiService.count_tokens: -1 when the client is not ready, the native
total when available, and -1 on any counting failure. -/
def Gemini.count_tokens (g : Gemini) (text : String) : Int :=
  if !g.clientReady then -1
  else
    match g.countTokensNative (pyOrStr text "") with
    | some total => total
    | none => -1

def MAX_TOKENS : Int := 1024

/-- `f"{final_response}\n{resp}" if final_response else resp`. -/
def joinAppend (acc resp : String) : String :=
  if acc != "" then acc ++ "\n" ++ resp else resp

/-- Newline-joined accumulation of summaries starting from `acc`. -/
def joinNL (acc : String) (ss : List String) : String := ss.foldl joinAppend acc

/-- The loop's accumulated token counter after `j` appends: 0 initially (more
generally the entry value `tok`), afterwards the re-measured count of the
accumulated text. -/
def tokState (count : String → Int) (tok : Int) (acc : String) (ss : List String) (j : Nat) : Int :=
  if j = 0 then tok else count (joinNL acc (ss.take j))

/-- Result of the news-digest loop, instrumented with the list of candidate
summaries the completion backend was asked to produce (in order) and the
(accumulated_text, accumulated_token_count) state after each append. -/
structure LoopResult where
  final_response : String
  final_response_token : Int
  summarized : List String
  appends : List (String × Int)
deriving Repr, DecidableEq

/-- The incremental-summarization loop of the market_news branch
(process_chat_service.process_request, lines 86-100): summarize each item,
measure the candidate, stop at the first budget violation, otherwise append
and re-measure the accumulated text. -/
def marketNewsLoop {α : Type} (count : String → Int) (summ : α → String) :
    List α → String → Int → LoopResult
  | [], acc, tok => ⟨acc, tok, [], []⟩
  | item :: rest, acc, tok =>
    let resp := summ item
    let resp_token := count resp
    if pyOrInt tok 0 + resp_token > MAX_TOKENS then
      ⟨acc, tok, [resp], []⟩
    else
      let acc2 := joinAppend acc resp
      let tok2 := count acc2
      let r := marketNewsLoop count summ rest acc2 tok2
      ⟨r.final_response, r.final_response_token, resp :: r.summarized, (acc2, tok2) :: r.appends⟩

/-- One HTTP reply from the market-data provider: status code and the result
of `response.json()` (`Except.error` when the body is not valid JSON). -/
structure HttpResponse where
  status_code : Int
  body : Except Unit Json

/-- One awaited fetch: either a reply or a raised transport exception. -/
inductive FetchResult where
  | exn : FetchResult
  | ok : HttpResponse → FetchResult

/-- Projection of one market-news feed item (get_market_news_data). -/
def newsItemProject (item : Json) : Except PyExn Json := do
  let t ← pyGet item "title"
  let s ← pyGet item "summary"
  pure (Json.obj [("title", jOpt t), ("summary", jOpt s)])

/-- get_market_news_data: `None` without a configured key, `None` on transport
error (only httpx.RequestError is caught) or on a non-200/short reply, else
the projected feed items; other exceptions propagate. -/
def get_market_news_data (apiKey : Option String) (fetch : FetchResult) :
    Except PyExn (Option (List Json)) :=
  if !pyKeyTruthy apiKey then Except.ok none
  else
    match fetch with
    | FetchResult.exn => Except.ok none
    | FetchResult.ok response =>
      if response.status_code == 200 then do
        let j ← liftJson response.body
        let has ← pyContains "feed" j
        if has then do
          let feedJ ← pyGetD j "feed" (Json.arr [])
          let items ← pyIterate feedJ
          let mapped ← mapMExcept newsItemProject items
          pure (some mapped)
        else pure none
      else Except.ok none

/-- Projection of one ticker-news feed item (get_stock_analysis_data). -/
def stockNewsProject (item : Json) : Except PyExn Json := do
  let t ← pyGet item "title"
  let s ← pyGet item "overall_sentiment_label"
  pure (Json.obj [("title", jOpt t), ("sentiment", jOpt s)])

/-- The quote block of get_stock_analysis_data: requires status 200 plus the
"Global Quote" key, appends the projected quote section to the dict. -/
def quoteStep (quote_resp : HttpResponse) (d0 : List (String × Json)) :
    Except PyExn (List (String × Json)) :=
  if quote_resp.status_code == 200 then do
    let j ← liftJson quote_resp.body
    let has ← pyContains "Global Quote" j
    if has then do
      let quote_data ← pyGetD j "Global Quote" (Json.obj [])
      let price ← pyGet quote_data "05. price"
      let chg ← pyGet quote_data "10. change percent"
      let vol ← pyGet quote_data "06. volume"
      pure (d0 ++ [("quote", Json.obj
        [("price", jOpt price), ("change_percent", jOpt chg), ("volume", jOpt vol)])])
    else pure d0
  else pure d0

/-- The overview block of get_stock_analysis_data: requires only status 200
(no key check), appends the projected overview section (missing keys become
null-valued fields). -/
def overviewStep (overview_resp : HttpResponse) (d1 : List (String × Json)) :
    Except PyExn (List (String × Json)) :=
  if overview_resp.status_code == 200 then do
    let overview_data ← liftJson overview_resp.body
    let mc ← pyGet overview_data "MarketCapitalization"
    let pe ← pyGet overview_data "PERatio"
    let eps ← pyGet overview_data "EPS"
    let hi ← pyGet overview_data "52WeekHigh"
    let lo ← pyGet overview_data "52WeekLow"
    pure (d1 ++ [("overview", Json.obj
      [("market_cap", jOpt mc), ("pe_ratio", jOpt pe), ("eps", jOpt eps),
       ("52_week_high", jOpt hi), ("52_week_low", jOpt lo)])])
  else pure d1

/-- The news block of get_stock_analysis_data: requires status 200 plus the
"feed" key, appends the first three projected feed items. -/
def newsStep (news_resp : HttpResponse) (d2 : List (String × Json)) :
    Except PyExn (List (String × Json)) :=
  if news_resp.status_code == 200 then do
    let j ← liftJson news_resp.body
    let has ← pyContains "feed" j
    if has then do
      let news_feed ← pyGetD j "feed" (Json.arr [])
      let sliced ← pySlice3 news_feed
      let mapped ← mapMExcept stockNewsProject sliced
      pure (d2 ++ [("news", Json.arr mapped)])
    else pure d2
  else pure d2

/-- The consolidation inside the try-block of get_stock_analysis_data: the
quote, overview and news blocks run in order on the shared dict. -/
def stockGatherBody (quote_resp overview_resp news_resp : HttpResponse) : Except PyExn Json := do
  let d0 : List (String × Json) := []
  let d1 ← quoteStep quote_resp d0
  let d2 ← overviewStep overview_resp d1
  let d3 ← newsStep news_resp d2
  pure (Json.obj d3)

/-- get_stock_analysis_data: `None` without a configured key; the three fetches
are gathered with return_exceptions=True and any raised fetch yields `None`;
any exception inside the consolidation is caught (`except Exception`) and
yields `None`; otherwise the consolidated dict. Never raises. -/
def get_stock_analysis_data (apiKey : Option String) (ticker : Option Json)
    (fetches : FetchResult × FetchResult × FetchResult) : Option Json :=
  if !pyKeyTruthy apiKey then none
  else
    match fetches with
    | (FetchResult.ok q, FetchResult.ok o, FetchResult.ok n) =>
      match stockGatherBody q o n with
      | Except.ok d => some d
      | Except.error _ => none
    | _ => none

/-- The module-level accumulators declared `global` in process_request. -/
structure GlobalState where
  planner_response : String
  final_response : String
  final_response_token : Int
deriving Repr, DecidableEq

/-- Observable external data-source invocations of one pipeline run. -/
inductive Event where
  | stockDataCall : Option Json → Event
  | marketNewsCall : Event

/-- The inbound request and terminal response records. -/
structure ChatRequest where
  text : String

structure ChatResponse where
  response : String
  backend : String
deriving Repr, DecidableEq

/-- External world of one request: the completion client, the Python json/str
library functions, the configured market-data key, and the provider's replies
(for the stock fan-out, as a function of the ticker value put in the URLs). -/
structure PyLib where
  loads : String → Except Unit Json
  dumps : Json → String
  reprJ : Json → String

structure Env where
  gemini : Gemini
  pylib : PyLib
  alphaKey : Option String
  stockFetch : Option Json → FetchResult × FetchResult × FetchResult
  newsFetch : FetchResult

/-- Python `str(x)` for an optional value: strings unchanged, `None` as
"None", anything else via repr. -/
def pyStrOf (lib : PyLib) : Option Json → String
  | none => "None"
  | some (Json.str s) => s
  | some j => lib.reprJ j

def GENERAL_RESTRICT_INSTRUCTION_PROMT : String :=
  "Only provide the answer content. Do not include meta commentary, disclaimers, or statements about tokens or formatting."

def plannerSystemPrompt : String :=
  "You are a routing agent. Analyze the user\x27s request and output a JSON plan. Possible intents are \x27stock_analysis\x27, \x27market_news\x27, and \x27general_chat\x27. The entity type is \x27ticker\x27. Only output the JSON plan. Examples:\nUser: \x27Analyze Tesla (TSLA)\x27 -> \x7b\"intent\": \"stock_analysis\", \"entities\": [\x7b\"type\": \"ticker\", \"value\": \"TSLA\"\x7d]\x7d\nUser: \x27give me the latest market news\x27 -> \x7b\"intent\": \"market_news\", \"entities\": []\x7d\nUser: \x27Hi there\x27 -> \x7b\"intent\": \"general_chat\", \"entities\": []\x7d"

def plannerMessages (userText : String) : List Msg :=
  [⟨"system", plannerSystemPrompt⟩, ⟨"user", userText⟩]

def stockSynthSystemPrompt : String :=
  s!"You are a smart stock analyst. Synthesize the following data into a concise analysis for a retail investor. Start the response directly with the analysis. Format response and provide response less than {MAX_TOKENS} tokens. {GENERAL_RESTRICT_INSTRUCTION_PROMT}"

def stockSynthMessages (lib : PyLib) (ticker : Option Json) (stock_data : Json) : List Msg :=
  [⟨"system", stockSynthSystemPrompt⟩,
   ⟨"user", "Data for " ++ pyStrOf lib ticker ++ ":\n" ++ lib.dumps stock_data⟩]

def newsItemSystemPrompt : String :=
  s!"You are a financial news assistant. Summarize the following market news headlines and summaries into a clear, easy-to-read list for a general audience.Format response and provide response  less than {MAX_TOKENS} tokens. {GENERAL_RESTRICT_INSTRUCTION_PROMT}"

def newsItemMessages (lib : PyLib) (item : Json) : List Msg :=
  [⟨"system", newsItemSystemPrompt⟩,
   ⟨"user", "Market News:\n" ++ pyStrOf lib (some item)⟩]

def newsFinalSystemPrompt (userText : String) : String :=
  s!"You are a financial news assistant. {userText} Summarize the following market news headlines and summaries into a clear, easy-to-read list for a general audience.Format response and provide response  less than {MAX_TOKENS} tokens. {GENERAL_RESTRICT_INSTRUCTION_PROMT}"

def newsFinalMessages (userText finalResp : String) : List Msg :=
  [⟨"system", newsFinalSystemPrompt userText⟩,
   ⟨"user", "Market News:\n" ++ finalResp⟩]

def generalSystemPrompt : String :=
  s!"You are a financial assistant. You can provide a detailed analysis of a stock if given a ticker (e.g., \x27analyze TSLA\x27) or provide the latest general market news. For other topics, act as a helpful assistant. Format response and provide response  less than {MAX_TOKENS} tokens. {GENERAL_RESTRICT_INSTRUCTION_PROMT}"

def generalMessages (userText : String) : List Msg :=
  [⟨"system", generalSystemPrompt⟩, ⟨"user", userText⟩]

def needTickerMsg : String := "I can analyze a stock, but I need a valid ticker symbol."

def newsFailMsg : String := "Sorry, I couldn\x27t retrieve the latest market news at the moment."

def stockFailMsg (lib : PyLib) (ticker : Option Json) : String :=
  "Sorry, I couldn\x27t retrieve financial data for " ++ pyStrOf lib ticker ++ "."

def temperatureZero : Rat := 0

def temperatureHalf : Rat := 1 / 2

/-- Markdown-fence cleanup of the raw planner reply (strip, then conditionally
removeprefix "```json" / removesuffix "```" and strip again). -/
def cleanPlannerOutput (s : String) : String :=
  let cleaned := pyStrip s
  if pyStartsWith cleaned "```json" then
    let c1 := pyDrop cleaned 7
    let c2 := if pyEndsWith c1 "```" then pyDropRight c1 3 else c1
    pyStrip c2
  else cleaned

/-- STEP 1 of process_request: one planner completion round-trip, fence
cleanup, json parse, and the general_chat fallback on decode failure. Stores
the raw reply in the planner_response global. Never raises. -/
def planStep (st : GlobalState) (env : Env) (userText : String) : GlobalState × Json :=
  let planner_response := env.gemini.chat (plannerMessages userText) temperatureZero 1000
  let st2 := { st with planner_response := planner_response }
  match env.pylib.loads (cleanPlannerOutput planner_response) with
  | Except.ok plan => (st2, plan)
  | Except.error _ => (st2, Json.obj [("intent", Json.str "general_chat")])

/-- STEP 2/3 of process_request: branch on the plan's intent, gather data,
synthesize.  Returns the final global state, the ChatResponse, and the trace
of data-source invocations. -/
def executeStep (st : GlobalState) (req : ChatRequest) (env : Env) (plan : Json) :
    Except PyExn (GlobalState × ChatResponse × List Event) := do
  let intent ← pyGet plan "intent"
  if pyEqStr intent "stock_analysis" then do
    let entities ← pyGetD plan "entities" (Json.arr [])
    if !pyTruthy entities then
      pure (st, { response := needTickerMsg, backend := "gemini" }, [])
    else do
      let e0 ← pyIndex0 entities
      let ty ← pyGet e0 "type"
      if !pyEqStr ty "ticker" then
        pure (st, { response := needTickerMsg, backend := "gemini" }, [])
      else do
        let ticker ← pyGet e0 "value"
        let failR : ChatResponse := { response := stockFailMsg env.pylib ticker, backend := "gemini" }
        match get_stock_analysis_data env.alphaKey ticker (env.stockFetch ticker) with
        | none =>
          pure (st, failR, [Event.stockDataCall ticker])
        | some d =>
          if pyTruthy d then
            let fr := env.gemini.chat (stockSynthMessages env.pylib ticker d) temperatureHalf 1024
            pure ({ st with final_response := fr },
                  { response := fr, backend := "gemini" }, [Event.stockDataCall ticker])
          else
            pure (st, failR, [Event.stockDataCall ticker])
  else if pyEqStr intent "market_news" then do
    let news_data ← get_market_news_data env.alphaKey env.newsFetch
    match news_data with
    | none =>
      pure (st, { response := newsFailMsg, backend := "gemini" }, [Event.marketNewsCall])
    | some items =>
      if items.isEmpty then
        pure (st, { response := newsFailMsg, backend := "gemini" }, [Event.marketNewsCall])
      else
        let r := marketNewsLoop env.gemini.count_tokens
          (fun item => env.gemini.chat (newsItemMessages env.pylib item) temperatureHalf 1024)
          items "" 0
        let fr := env.gemini.chat (newsFinalMessages req.text r.final_response)
          temperatureHalf (MAX_TOKENS * 2)
        pure ({ st with final_response := fr, final_response_token := r.final_response_token },
              { response := fr, backend := "gemini" }, [Event.marketNewsCall])
  else
    let resp := env.gemini.chat (generalMessages req.text) temperatureHalf 512
    pure (st, { response := resp, backend := "gemini" }, [])

/-- The whole pipeline: re-initialize the module-level accumulators, plan,
then execute.  The incoming global state is the residue of earlier runs. -/
def process_request (st : GlobalState) (req : ChatRequest) (env : Env) :
    Except PyExn (GlobalState × ChatResponse × List Event) :=
  let stInit : GlobalState := { planner_response := "", final_response := "", final_response_token := 0 }
  let p := planStep stInit env req.text
  executeStep p.1 req env p.2

/-- The `.text` accessor produced a string that strips to non-blank. -/
def textAttrUsable (resp : GenResponse) : Bool :=
  match resp.textAttr with
  | some s => pyStrip s != ""
  | none => false

/-- The first candidate yields usable joined part text. -/
def candUsable (resp : GenResponse) : Bool :=
  match resp.candidates with
  | [] => false
  | c :: _ => candidateText c != ""

/-- The first candidate is flagged by safety ratings or a SAFETY finish reason. -/
def candSafetyFlag (resp : GenResponse) : Bool :=
  match resp.candidates with
  | [] => false
  | c :: _ => c.safetyRatings || finishSafety c

/-- A blocked reply: no usable text anywhere and a safety/block indicator. -/
def respBlocked (resp : GenResponse) : Bool :=
  !textAttrUsable resp && !candUsable resp && (candSafetyFlag resp || resp.promptBlocked)

/-- An empty reply: no usable text and no block indicator at all. -/
def respEmpty (resp : GenResponse) : Bool :=
  !textAttrUsable resp && !candUsable resp && !candSafetyFlag resp && !resp.promptBlocked

/- Concrete fixtures used by closed witness/counterexample theorems. -/

/-- A Gemini client whose configuration failed (no key / no package). -/
def gOff : Gemini :=
  { clientReady := false, generateContent := fun _ _ _ _ => GenOutcome.exn,
    countTokensNative := fun _ => none }

/-- A configured Gemini client whose backend always replies with `txt`. -/
def gConstText (txt : String) : Gemini :=
  { clientReady := true,
    generateContent := fun _ _ _ _ =>
      GenOutcome.ok { textAttr := some txt, candidates := [], promptBlocked := false },
    countTokensNative := fun _ => some 1 }

/-- A json library stub on which every parse fails. -/
def libFailLoads : PyLib :=
  { loads := fun _ => Except.error (), dumps := fun _ => "", reprJ := fun _ => "" }

/-- A json library stub that parses exactly `txt` to `j` (as json.loads would). -/
def libFixed (txt : String) (j : Json) : PyLib :=
  { loads := fun s => if s == txt then Except.ok j else Except.error (),
    dumps := fun _ => "", reprJ := fun _ => "" }

def planTxtC5 : String :=
  "\x7b\"intent\": \"stock_analysis\", \"entities\": [\x7b\"type\": \"ticker\", \"value\": \"\"\x7d]\x7d"

def planJsonC5 : Json :=
  Json.obj [("intent", Json.str "stock_analysis"),
    ("entities", Json.arr [Json.obj [("type", Json.str "ticker"), ("value", Json.str "")]])]

def envC5 : Env :=
  { gemini := gConstText planTxtC5, pylib := libFixed planTxtC5 planJsonC5,
    alphaKey := some "k",
    stockFetch := fun _ => (FetchResult.exn, FetchResult.exn, FetchResult.exn),
    newsFetch := FetchResult.exn }

def planTxtC8 : String := "\x7b\"intent\": \"market_news\", \"entities\": []\x7d"

def planJsonC8 : Json :=
  Json.obj [("intent", Json.str "market_news"), ("entities", Json.arr [])]

def envC8 : Env :=
  { gemini := gConstText planTxtC8, pylib := libFixed planTxtC8 planJsonC8,
    alphaKey := none,
    stockFetch := fun _ => (FetchResult.exn, FetchResult.exn, FetchResult.exn),
    newsFetch := FetchResult.exn }

def envLoadsFail : Env :=
  { gemini := gOff, pylib := libFailLoads, alphaKey := none,
    stockFetch := fun _ => (FetchResult.exn, FetchResult.exn, FetchResult.exn),
    newsFetch := FetchResult.exn }

def stNeutral : GlobalState :=
  { planner_response := "", final_response := "", final_response_token := 0 }

def reqHi : ChatRequest := { text := "hi" }

/-- A configured client whose backend always raises. -/
def gExn : Gemini :=
  { clientReady := true, generateContent := fun _ _ _ _ => GenOutcome.exn,
    countTokensNative := fun _ => none }

/-- A safety-blocked reply without any text. -/
def respB : GenResponse :=
  { textAttr := none,
    candidates := [{ finishReason := some "SAFETY", parts := [], safetyRatings := true }],
    promptBlocked := false }

def gBlocked : Gemini :=
  { clientReady := true, generateContent := fun _ _ _ _ => GenOutcome.ok respB,
    countTokensNative := fun _ => none }

/-- An entirely empty reply. -/
def respE : GenResponse :=
  { textAttr := none, candidates := [], promptBlocked := false }

def gEmpty : Gemini :=
  { clientReady := true, generateContent := fun _ _ _ _ => GenOutcome.ok respE,
    countTokensNative := fun _ => none }

/-- An environment whose overview fetch succeeds with a keyless notice body
while quote and news fail with non-200 statuses. -/
def envC4w : Env :=
  { gemini := gOff, pylib := libFailLoads, alphaKey := some "k",
    stockFetch := fun _ =>
      (FetchResult.ok ⟨404, Except.ok (Json.obj [])⟩,
       FetchResult.ok ⟨200, Except.ok (Json.obj [])⟩,
       FetchResult.ok ⟨404, Except.ok (Json.obj [])⟩),
    newsFetch := FetchResult.exn }

/- Theorems. -/

theorem pyOrInt_self (x : Int) : pyOrInt x 0 = x := by
  unfold pyOrInt
  rcases eq_or_ne x 0 with h | h <;> simp [h]

theorem exceptBind_ok {ε α β : Type} (a : α) (f : α → Except ε β) :
    (Except.ok a >>= f : Except ε β) = f a := rfl

theorem exceptPure_eq {ε α : Type} (a : α) : (pure a : Except ε α) = Except.ok a := rfl

theorem joinNL_nil (acc : String) : joinNL acc [] = acc := rfl

theorem joinNL_cons (acc x : String) (l : List String) :
    joinNL acc (x :: l) = joinNL (joinAppend acc x) l := rfl

theorem tokState_succ (count : String → Int) (tok : Int) (acc x : String)
    (ss : List String) (j : Nat) :
    tokState count tok acc (x :: ss) (j + 1)
      = tokState count (count (joinAppend acc x)) (joinAppend acc x) ss j := by
  rcases Nat.eq_zero_or_pos j with h | h
  · subst h
    simp [tokState, joinNL]
  · have hj : j ≠ 0 := by omega
    simp [tokState, hj, joinNL_cons]

/-- Full characterization of the news-digest loop from any entry state: it
appends a greedy prefix of the candidate summaries, re-measuring after each
append, and summarizes exactly the appended items plus (when it stops early)
the single violating item. -/
theorem marketNewsLoop_characterization {α : Type} (count : String → Int) (summ : α → String)
    (items : List α) : ∀ (acc : String) (tok : Int),
    ∃ k : Nat, k ≤ items.length ∧
      (marketNewsLoop count summ items acc tok).final_response
        = joinNL acc ((items.map summ).take k) ∧
      (marketNewsLoop count summ items acc tok).final_response_token
        = tokState count tok acc (items.map summ) k ∧
      (marketNewsLoop count summ items acc tok).appends
        = (List.range k).map (fun j =>
            (joinNL acc ((items.map summ).take (j + 1)),
             count (joinNL acc ((items.map summ).take (j + 1))))) ∧
      (marketNewsLoop count summ items acc tok).summarized
        = (items.map summ).take (min (k + 1) items.length) ∧
      (∀ i, i < k → tokState count tok acc (items.map summ) i
          + count ((items.map summ).getD i "") ≤ MAX_TOKENS) ∧
      (k < items.length → tokState count tok acc (items.map summ) k
          + count ((items.map summ).getD k "") > MAX_TOKENS) := by
  induction items with
  | nil =>
    intro acc tok
    refine ⟨0, by simp, ?_, ?_, ?_, ?_, ?_, ?_⟩ <;>
      simp [marketNewsLoop, joinNL, tokState]
  | cons item rest ih =>
    intro acc tok
    by_cases hguard : pyOrInt tok 0 + count (summ item) > MAX_TOKENS
    · refine ⟨0, by simp, ?_, ?_, ?_, ?_, ?_, ?_⟩
      · simp [marketNewsLoop, hguard, joinNL]
      · simp [marketNewsLoop, hguard, tokState]
      · simp [marketNewsLoop, hguard]
      · have hmin : min 1 (rest.length + 1) = 1 := by omega
        simp [marketNewsLoop, hguard, hmin]
      · intro i hi; omega
      · intro _
        rw [pyOrInt_self] at hguard
        simpa [tokState] using hguard
    · obtain ⟨k, hk, h1, h2, h3, h4, h5, h6⟩ :=
        ih (joinAppend acc (summ item)) (count (joinAppend acc (summ item)))
      have hle : tok + count (summ item) ≤ MAX_TOKENS := by
        rw [pyOrInt_self] at hguard; omega
      refine ⟨k + 1, by simpa using Nat.succ_le_succ hk, ?_, ?_, ?_, ?_, ?_, ?_⟩
      · simp only [marketNewsLoop, hguard, if_false, List.map_cons, List.take_succ_cons,
          joinNL_cons]
        exact h1
      · simp only [marketNewsLoop, hguard, if_false, List.map_cons, tokState_succ]
        exact h2
      · simp only [marketNewsLoop, hguard, if_false, List.map_cons,
          List.range_succ_eq_map, List.map_cons, List.map_map, List.cons.injEq]
        refine ⟨by simp [List.take_succ_cons, joinNL_cons, joinNL_nil], ?_⟩
        rw [h3, List.map_eq_map_iff]
        intro j hj
        simp [Function.comp, List.take_succ_cons, joinNL_cons]
      · simp only [marketNewsLoop, hguard, if_false, List.map_cons, List.length_cons,
          Nat.succ_min_succ, List.take_succ_cons]
        rw [h4]
      · intro i hi
        match i with
        | 0 =>
          simpa [tokState] using hle
        | Nat.succ j =>
          have hj : j < k := by omega
          simp only [List.map_cons, tokState_succ, List.getD_cons_succ]
          exact h5 j hj
      · intro hlt
        have hlt2 : k < rest.length := by simpa using hlt
        simp only [List.map_cons, tokState_succ, List.getD_cons_succ]
        exact h6 hlt2

/-- C1: in the market_news incremental-summarization loop, items are processed
in the data-source order; item i's candidate summary is appended iff the
accumulated token count plus its measured count does not exceed MAX_TOKENS
(1024); at the first violation the loop stops at once, so only the appended
prefix plus the single violating item are ever summarized and no later item is
summarized or appended even if its own count is small. -/
theorem c1_news_digest_budget_and_order {α : Type} (count : String → Int) (summ : α → String)
    (items : List α) :
    ∃ k : Nat, k ≤ items.length ∧
      (marketNewsLoop count summ items "" 0).final_response
        = joinNL "" ((items.map summ).take k) ∧
      (marketNewsLoop count summ items "" 0).appends.length = k ∧
      (marketNewsLoop count summ items "" 0).summarized
        = (items.map summ).take (min (k + 1) items.length) ∧
      (∀ i, i < k → tokState count 0 "" (items.map summ) i
          + count ((items.map summ).getD i "") ≤ MAX_TOKENS) ∧
      (k < items.length → tokState count 0 "" (items.map summ) k
          + count ((items.map summ).getD k "") > MAX_TOKENS) := by
  obtain ⟨k, hk, h1, h2, h3, h4, h5, h6⟩ :=
    marketNewsLoop_characterization count summ items "" 0
  exact ⟨k, hk, h1, by simp [h3], h4, h5, h6⟩

theorem c1_witness :
    ∃ k : Nat, k ≤ ([1, 2, 3] : List Nat).length ∧
      (marketNewsLoop (fun s => (s.length : Int)) (fun n : Nat => toString n)
          [1, 2, 3] "" 0).final_response
        = joinNL "" ((([1, 2, 3] : List Nat).map (fun n => toString n)).take k) ∧
      (marketNewsLoop (fun s => (s.length : Int)) (fun n : Nat => toString n)
          [1, 2, 3] "" 0).appends.length = k ∧
      (marketNewsLoop (fun s => (s.length : Int)) (fun n : Nat => toString n)
          [1, 2, 3] "" 0).summarized
        = ((([1, 2, 3] : List Nat).map (fun n => toString n)).take
            (min (k + 1) ([1, 2, 3] : List Nat).length)) ∧
      (∀ i, i < k → tokState (fun s => (s.length : Int)) 0 ""
            (([1, 2, 3] : List Nat).map (fun n => toString n)) i
          + (((([1, 2, 3] : List Nat).map (fun n => toString n)).getD i "").length : Int)
          ≤ MAX_TOKENS) ∧
      (k < ([1, 2, 3] : List Nat).length →
        tokState (fun s => (s.length : Int)) 0 ""
            (([1, 2, 3] : List Nat).map (fun n => toString n)) k
          + (((([1, 2, 3] : List Nat).map (fun n => toString n)).getD k "").length : Int)
          > MAX_TOKENS) :=
  c1_news_digest_budget_and_order (fun s => (s.length : Int)) (fun n : Nat => toString n) [1, 2, 3]

/-- C9: invariant of the news-digest loop state – after every append the
accumulated token counter equals the client's measured count of the full
newline-joined accumulated text (re-measured, not summed): every recorded
append state (text, counter) satisfies counter = count text, and the recorded
texts are exactly the successive newline-joins of the appended summaries. -/
theorem c9_append_invariant {α : Type} (count : String → Int) (summ : α → String)
    (items : List α) :
    (∀ p ∈ (marketNewsLoop count summ items "" 0).appends, p.2 = count p.1) ∧
    (∃ k : Nat, (marketNewsLoop count summ items "" 0).appends
        = (List.range k).map (fun j =>
            (joinNL "" ((items.map summ).take (j + 1)),
             count (joinNL "" ((items.map summ).take (j + 1)))))) := by
  obtain ⟨k, hk, h1, h2, h3, h4, h5, h6⟩ :=
    marketNewsLoop_characterization count summ items "" 0
  constructor
  · intro p hp
    rw [h3] at hp
    simp only [List.mem_map, List.mem_range] at hp
    obtain ⟨j, hj, rfl⟩ := hp
    rfl
  · exact ⟨k, h3⟩

theorem c9_witness :
    (∀ p ∈ (marketNewsLoop (fun s => (s.length : Int)) (fun _ : Nat => "ab")
        [0, 1] "" 0).appends, p.2 = ((p.1).length : Int)) ∧
    (∃ k : Nat, (marketNewsLoop (fun s => (s.length : Int)) (fun _ : Nat => "ab")
        [0, 1] "" 0).appends
      = (List.range k).map (fun j =>
          (joinNL "" ((([0, 1] : List Nat).map (fun _ => "ab")).take (j + 1)),
           ((joinNL "" ((([0, 1] : List Nat).map (fun _ => "ab")).take (j + 1))).length : Int)))) :=
  c9_append_invariant (fun s => (s.length : Int)) (fun _ : Nat => "ab") [0, 1]

/-- Helper: when every measured count is the sentinel -1, the budget guard can
never fire, so the loop appends every item. -/
theorem marketNewsLoop_count_unavailable {α : Type} (count : String → Int)
    (h : ∀ s, count s = -1) (summ : α → String) :
    ∀ (items : List α) (acc : String) (tok : Int), tok ≤ MAX_TOKENS →
      (marketNewsLoop count summ items acc tok).final_response = joinNL acc (items.map summ) ∧
      (marketNewsLoop count summ items acc tok).summarized = items.map summ ∧
      (marketNewsLoop count summ items acc tok).appends.length = items.length := by
  intro items
  induction items with
  | nil =>
    intro acc tok htok
    simp [marketNewsLoop, joinNL]
  | cons item rest ih =>
    intro acc tok htok
    have hguard : ¬ (pyOrInt tok 0 + count (summ item) > MAX_TOKENS) := by
      rw [pyOrInt_self, h]; omega
    obtain ⟨ih1, ih2, ih3⟩ :=
      ih (joinAppend acc (summ item)) (count (joinAppend acc (summ item)))
        (by rw [h]; norm_num [MAX_TOKENS])
    refine ⟨?_, ?_, ?_⟩
    · simp only [marketNewsLoop, hguard, if_false, List.map_cons, joinNL_cons]
      exact ih1
    · simp only [marketNewsLoop, hguard, if_false, List.map_cons]
      rw [ih2]
    · simp only [marketNewsLoop, hguard, if_false, List.length_cons, List.length_cons]
      simp [ih3]

/-- C10 (implicit): when the token counter is unavailable and count_tokens
returns the sentinel -1 on every call (here: the client is not configured),
the guard (accumulated or 0) + (-1) can never exceed MAX_TOKENS, so the
news-digest loop never stops early – every item's candidate summary is
appended, the ceiling is not enforced, and the loop completes (it is total). -/
theorem c10_degraded_counter_appends_all {α : Type} (g : Gemini)
    (hg : g.clientReady = false) (summ : α → String) (items : List α) :
    (marketNewsLoop g.count_tokens summ items "" 0).final_response
      = joinNL "" (items.map summ) ∧
    (marketNewsLoop g.count_tokens summ items "" 0).summarized = items.map summ ∧
    (marketNewsLoop g.count_tokens summ items "" 0).appends.length = items.length := by
  have hcount : ∀ s, g.count_tokens s = -1 := by
    intro s
    simp [Gemini.count_tokens, hg]
  exact marketNewsLoop_count_unavailable _ hcount summ items "" 0 (by norm_num [MAX_TOKENS])

theorem c10_witness :
    (marketNewsLoop gOff.count_tokens (fun _ : Nat => "s") [1, 2, 3] "" 0).final_response
      = joinNL "" (([1, 2, 3] : List Nat).map (fun _ => "s")) ∧
    (marketNewsLoop gOff.count_tokens (fun _ : Nat => "s") [1, 2, 3] "" 0).summarized
      = ([1, 2, 3] : List Nat).map (fun _ => "s") ∧
    (marketNewsLoop gOff.count_tokens (fun _ : Nat => "s") [1, 2, 3] "" 0).appends.length
      = ([1, 2, 3] : List Nat).length :=
  c10_degraded_counter_appends_all gOff rfl (fun _ => "s") [1, 2, 3]

/-- C3: if any one of the three gathered stock-data fetches raises, the
aggregator returns no-data (None) – never a partial payload – and, being a
total function into Option, lets no exception cross into the Orchestrator. -/
theorem c3_fanout_exception_aborts_aggregation (apiKey : Option String) (ticker : Option Json)
    (q o n : FetchResult)
    (h : q = FetchResult.exn ∨ o = FetchResult.exn ∨ n = FetchResult.exn) :
    get_stock_analysis_data apiKey ticker (q, o, n) = none := by
  rcases q with _ | qr <;> rcases o with _ | orr <;> rcases n with _ | nr <;>
    first
      | (unfold get_stock_analysis_data; split <;> rfl)
      | (exfalso; rcases h with h | h | h <;> simp_all)

theorem c3_witness :
    get_stock_analysis_data (some "k") none
      (FetchResult.exn, FetchResult.ok ⟨200, Except.ok (Json.obj [])⟩,
       FetchResult.ok ⟨200, Except.ok (Json.obj [])⟩) = none :=
  c3_fanout_exception_aborts_aggregation (some "k") none _ _ _ (Or.inl rfl)

/-- C6: the pipeline's output – final global state, ChatResult (response text
and backend identifier) and event trace – does not depend on the module-level
accumulators left over from earlier runs, because process_request re-initializes
them; hence repeated runs with identical oracles produce identical results. -/
theorem c6_pipeline_state_independent (st1 st2 : GlobalState) (req : ChatRequest) (env : Env) :
    process_request st1 req env = process_request st2 req env := rfl

/-- Helper: a blocked reply is mapped to the fixed safety message. -/
theorem extractText_of_blocked (resp : GenResponse) (h : respBlocked resp = true) :
    extractText resp = safetyMsg := by
  obtain ⟨ta, cands, pb⟩ := resp
  simp only [respBlocked, Bool.and_eq_true, Bool.not_eq_true', Bool.or_eq_true] at h
  obtain ⟨⟨hta, hcu⟩, hflag⟩ := h
  have hcand : extractCandidates ⟨ta, cands, pb⟩ = safetyMsg := by
    rcases cands with _ | ⟨c, cs⟩
    · simp only [candSafetyFlag] at hflag
      rcases hflag with hflag | hflag
      · exact absurd hflag (by simp)
      · simp [extractCandidates, extractPromptFeedback, hflag]
    · simp only [candUsable, bne_eq_false_iff_eq] at hcu
      simp only [candSafetyFlag] at hflag
      rcases hflag with hflag | hflag
      · simp [extractCandidates, hcu, hflag]
      · simp [extractCandidates, hcu, hflag, extractPromptFeedback]
  rcases ta with _ | s
  · simpa [extractText] using hcand
  · simp only [textAttrUsable, bne_eq_false_iff_eq] at hta
    simpa [extractText, hta] using hcand

/-- Helper: an empty reply is mapped to the fixed default message. -/
theorem extractText_of_empty (resp : GenResponse) (h : respEmpty resp = true) :
    extractText resp = defaultEmptyMsg := by
  obtain ⟨ta, cands, pb⟩ := resp
  simp only [respEmpty, Bool.and_eq_true, Bool.not_eq_true'] at h
  obtain ⟨⟨⟨hta, hcu⟩, hflag⟩, hpb⟩ := h
  have hcand : extractCandidates ⟨ta, cands, pb⟩ = defaultEmptyMsg := by
    rcases cands with _ | ⟨c, cs⟩
    · simp [extractCandidates, extractPromptFeedback, hpb]
    · simp only [candUsable, bne_eq_false_iff_eq] at hcu
      simp only [candSafetyFlag, Bool.or_eq_false_iff] at hflag
      simp [extractCandidates, hcu, hflag.1, hflag.2, extractPromptFeedback, hpb]
  rcases ta with _ | s
  · simpa [extractText] using hcand
  · simp only [textAttrUsable, bne_eq_false_iff_eq] at hta
    simpa [extractText, hta] using hcand

/-- C7: the Completion Client's chat operation never raises – it is a total
function into String – and it maps every anticipated backend outcome to a
fixed string: unconfigured client → "not configured" message, backend
exception → fixed administrator apology, safety-blocked reply → fixed safety
apology, empty/truncated reply without text → fixed "didn't understand"
apology. -/
theorem c7_chat_total_and_fallbacks (g : Gemini) (msgs : List Msg) (t : Rat) (mt : Int) :
    (g.clientReady = false → g.chat msgs t mt = notConfiguredMsg) ∧
    (g.clientReady = true →
      g.generateContent (systemPromptOf msgs) (promptOf msgs) t mt = GenOutcome.exn →
      g.chat msgs t mt = adminErrMsg) ∧
    (∀ resp, g.clientReady = true →
      g.generateContent (systemPromptOf msgs) (promptOf msgs) t mt = GenOutcome.ok resp →
      respBlocked resp = true → g.chat msgs t mt = safetyMsg) ∧
    (∀ resp, g.clientReady = true →
      g.generateContent (systemPromptOf msgs) (promptOf msgs) t mt = GenOutcome.ok resp →
      respEmpty resp = true → g.chat msgs t mt = defaultEmptyMsg) := by
  refine ⟨?_, ?_, ?_, ?_⟩
  · intro h
    simp [Gemini.chat, h]
  · intro h hexn
    simp [Gemini.chat, h, hexn, chatTry]
  · intro resp h hok hb
    simp [Gemini.chat, h, hok, chatTry, extractText_of_blocked resp hb]
  · intro resp h hok he
    simp [Gemini.chat, h, hok, chatTry, extractText_of_empty resp he]

theorem c7_witness :
    gOff.chat [] temperatureZero 0 = notConfiguredMsg ∧
    gExn.chat [] temperatureZero 0 = adminErrMsg ∧
    gBlocked.chat [] temperatureZero 0 = safetyMsg ∧
    gEmpty.chat [] temperatureZero 0 = defaultEmptyMsg :=
  ⟨(c7_chat_total_and_fallbacks gOff [] temperatureZero 0).1 rfl,
   (c7_chat_total_and_fallbacks gExn [] temperatureZero 0).2.1 rfl rfl,
   (c7_chat_total_and_fallbacks gBlocked [] temperatureZero 0).2.2.1 respB rfl rfl (by rfl),
   (c7_chat_total_and_fallbacks gEmpty [] temperatureZero 0).2.2.2 respE rfl rfl (by rfl)⟩

/-- C2: for every planner reply that is malformed – json decode failure, or a
parsed object with no "intent" key (a non-text reply cannot occur: chat is
String-valued, see C7) – the pipeline takes the general_chat branch exactly as
for the fallback plan, and the planning step raises no exception: the whole
run returns Except.ok with the general-chat completion. -/
theorem c2_malformed_planner_general_chat (st : GlobalState) (req : ChatRequest) (env : Env)
    (h : env.pylib.loads (cleanPlannerOutput
          (env.gemini.chat (plannerMessages req.text) temperatureZero 1000)) = Except.error ()
       ∨ ∃ kvs, env.pylib.loads (cleanPlannerOutput
            (env.gemini.chat (plannerMessages req.text) temperatureZero 1000))
              = Except.ok (Json.obj kvs)
          ∧ lookupKey "intent" kvs = none) :
    process_request st req env = Except.ok
      ({ planner_response := env.gemini.chat (plannerMessages req.text) temperatureZero 1000,
         final_response := "", final_response_token := 0 },
       { response := env.gemini.chat (generalMessages req.text) temperatureHalf 512,
         backend := "gemini" }, []) := by
  simp only [process_request, planStep]
  rcases h with h | ⟨kvs, h, hlk⟩
  · rw [h]
    rfl
  · rw [h]
    show executeStep _ req env (Json.obj kvs) = _
    have hget : pyGet (Json.obj kvs) "intent" = Except.ok none := by
      simp [pyGet, hlk]
    simp only [executeStep, hget]
    rfl

theorem c2_witness :
    process_request stNeutral reqHi envLoadsFail = Except.ok
      ({ planner_response :=
           envLoadsFail.gemini.chat (plannerMessages reqHi.text) temperatureZero 1000,
         final_response := "", final_response_token := 0 },
       { response := envLoadsFail.gemini.chat (generalMessages reqHi.text) temperatureHalf 512,
         backend := "gemini" }, []) :=
  c2_malformed_planner_general_chat stNeutral reqHi envLoadsFail (Or.inl rfl)

/-- C5 counterexample: the claim says the Data Aggregator is invoked only with
a validated non-empty ticker string; here the planner plan carries a ticker
entity whose value is the empty string, the guard passes (it checks only the
entity type), and the aggregator is invoked with "" (see the event trace). -/
theorem c5_counterexample :
    process_request stNeutral reqHi envC5 = Except.ok
      ({ planner_response := planTxtC5, final_response := "", final_response_token := 0 },
       { response := "Sorry, I couldn\x27t retrieve financial data for .", backend := "gemini" },
       [Event.stockDataCall (some (Json.str ""))]) := by
  rfl

/-- C5 (amended): for every stock_analysis plan, the Orchestrator returns the
fixed "need a valid ticker" text without invoking the Data Aggregator when the
entity list is missing/falsy or the first entity's type is not "ticker"; when
the first entity does have type "ticker" the aggregator is invoked with the
entity's unvalidated value – possibly empty or missing – as shown by the
event trace. -/
theorem c5_ticker_gate_amended (st : GlobalState) (req : ChatRequest) (env : Env)
    (kvs : List (String × Json))
    (hint : lookupKey "intent" kvs = some (Json.str "stock_analysis")) :
    (pyTruthy ((lookupKey "entities" kvs).getD (Json.arr [])) = false →
      executeStep st req env (Json.obj kvs) = Except.ok
        (st, { response := needTickerMsg, backend := "gemini" }, [])) ∧
    (∀ e0 es ekvs, (lookupKey "entities" kvs).getD (Json.arr []) = Json.arr (e0 :: es) →
      e0 = Json.obj ekvs → lookupKey "type" ekvs ≠ some (Json.str "ticker") →
      executeStep st req env (Json.obj kvs) = Except.ok
        (st, { response := needTickerMsg, backend := "gemini" }, [])) ∧
    (∀ e0 es ekvs, (lookupKey "entities" kvs).getD (Json.arr []) = Json.arr (e0 :: es) →
      e0 = Json.obj ekvs → lookupKey "type" ekvs = some (Json.str "ticker") →
      ∃ stR resp, executeStep st req env (Json.obj kvs) = Except.ok
        (stR, resp, [Event.stockDataCall (lookupKey "value" ekvs)])) := by
  have hget : pyGet (Json.obj kvs) "intent" = Except.ok (some (Json.str "stock_analysis")) := by
    simp [pyGet, hint]
  have hA : pyEqStr (some (Json.str "stock_analysis")) "stock_analysis" = true := rfl
  refine ⟨?_, ?_, ?_⟩
  · intro hfalsy
    simp [executeStep, hget, exceptBind_ok, exceptPure_eq, hA, pyGetD, hfalsy]
  · intro e0 es ekvs hents he0 hty
    subst he0
    have hty2 : pyEqStr (lookupKey "type" ekvs) "ticker" = false := by
      rcases hl : lookupKey "type" ekvs with _ | v
      · rfl
      · rcases v with _ | b | nn | s | xs | kk
        · rfl
        · rfl
        · rfl
        · have hs : s ≠ "ticker" := by
            intro h2
            apply hty
            rw [hl, h2]
          simp [pyEqStr, hs]
        · rfl
        · rfl
    have harr : pyTruthy (Json.arr (Json.obj ekvs :: es)) = true := rfl
    have hIdx : pyIndex0 (Json.arr (Json.obj ekvs :: es)) = Except.ok (Json.obj ekvs) := rfl
    have hTy0 : pyGet (Json.obj ekvs) "type" = Except.ok (lookupKey "type" ekvs) := rfl
    simp [executeStep, hget, exceptBind_ok, exceptPure_eq, hA, pyGetD, hents, harr, hIdx, hTy0, hty2]
  · intro e0 es ekvs hents he0 hty
    subst he0
    have hty3 : pyEqStr (lookupKey "type" ekvs) "ticker" = true := by rw [hty]; rfl
    have harr : pyTruthy (Json.arr (Json.obj ekvs :: es)) = true := rfl
    have hIdx : pyIndex0 (Json.arr (Json.obj ekvs :: es)) = Except.ok (Json.obj ekvs) := rfl
    have hTy0 : pyGet (Json.obj ekvs) "type" = Except.ok (lookupKey "type" ekvs) := rfl
    have hVal : pyGet (Json.obj ekvs) "value" = Except.ok (lookupKey "value" ekvs) := rfl
    simp only [executeStep, hget, exceptBind_ok, hA, pyGetD, hents, harr, hIdx, hTy0, hty3,
      hVal, if_true, Bool.not_true, Bool.not_false]
    rcases hsd : get_stock_analysis_data env.alphaKey (lookupKey "value" ekvs)
        (env.stockFetch (lookupKey "value" ekvs)) with _ | d
    · exact ⟨_, _, rfl⟩
    · by_cases hd : pyTruthy d = true
      · simp only [if_pos hd]
        exact ⟨_, _, rfl⟩
      · simp only [if_neg hd]
        exact ⟨_, _, rfl⟩

theorem c5_witness :
    (executeStep stNeutral reqHi envC5 (Json.obj [("intent", Json.str "stock_analysis")])
       = Except.ok (stNeutral, { response := needTickerMsg, backend := "gemini" }, [])) ∧
    (executeStep stNeutral reqHi envC5 (Json.obj [("intent", Json.str "stock_analysis"),
        ("entities", Json.arr [Json.obj [("type", Json.str "text")]])])
       = Except.ok (stNeutral, { response := needTickerMsg, backend := "gemini" }, [])) ∧
    (∃ stR resp, executeStep stNeutral reqHi envC5 (Json.obj [("intent", Json.str "stock_analysis"),
        ("entities", Json.arr [Json.obj [("type", Json.str "ticker")]])])
       = Except.ok (stR, resp,
           [Event.stockDataCall (lookupKey "value" [("type", Json.str "ticker")])])) :=
  ⟨(c5_ticker_gate_amended stNeutral reqHi envC5
      [("intent", Json.str "stock_analysis")] rfl).1 rfl,
   (c5_ticker_gate_amended stNeutral reqHi envC5
      [("intent", Json.str "stock_analysis"),
       ("entities", Json.arr [Json.obj [("type", Json.str "text")]])] rfl).2.1
      (Json.obj [("type", Json.str "text")]) [] [("type", Json.str "text")] rfl rfl
      (by intro h2
          rw [show lookupKey "type" [("type", Json.str "text")]
                = some (Json.str "text") from rfl] at h2
          simp at h2),
   (c5_ticker_gate_amended stNeutral reqHi envC5
      [("intent", Json.str "stock_analysis"),
       ("entities", Json.arr [Json.obj [("type", Json.str "ticker")]])] rfl).2.2
      (Json.obj [("type", Json.str "ticker")]) [] [("type", Json.str "ticker")] rfl rfl rfl⟩

/-- C8 counterexample: with the market-data key absent the pipeline neither
fails at startup nor produces any "not configured" text for that key – the
per-request check in the data fetcher returns None and the user sees the fixed
"couldn't retrieve the latest market news" message (which does not contain the
words "not configured"). -/
theorem c8_counterexample :
    process_request stNeutral reqHi envC8 = Except.ok
      ({ planner_response := planTxtC8, final_response := "", final_response_token := 0 },
       { response := newsFailMsg, backend := "gemini" }, [Event.marketNewsCall]) ∧
    strContainsB "not configured" newsFailMsg = false := by
  exact ⟨rfl, rfl⟩

/-- C8 (amended): absence of the market-data API key is detected by a
per-request check at the top of each data-fetch call, which logs and returns
None without raising; the Orchestrator maps this to the fixed "couldn't
retrieve" message for the intent. No "not configured" message is produced for
this key and the pipeline does not crash. -/
theorem c8_missing_key_amended :
    (∀ (apiKey : Option String) (fetch : FetchResult), pyKeyTruthy apiKey = false →
      get_market_news_data apiKey fetch = Except.ok none) ∧
    (∀ (apiKey : Option String) (ticker : Option Json)
        (rs : FetchResult × FetchResult × FetchResult), pyKeyTruthy apiKey = false →
      get_stock_analysis_data apiKey ticker rs = none) ∧
    (∀ (st : GlobalState) (req : ChatRequest) (env : Env) (kvs : List (String × Json)),
      pyKeyTruthy env.alphaKey = false →
      lookupKey "intent" kvs = some (Json.str "market_news") →
      executeStep st req env (Json.obj kvs) = Except.ok
        (st, { response := newsFailMsg, backend := "gemini" }, [Event.marketNewsCall])) := by
  refine ⟨?_, ?_, ?_⟩
  · intro apiKey fetch h
    simp [get_market_news_data, h]
  · intro apiKey ticker rs h
    simp [get_stock_analysis_data, h]
  · intro st req env kvs h hint
    have hget : pyGet (Json.obj kvs) "intent" = Except.ok (some (Json.str "market_news")) := by
      simp [pyGet, hint]
    have hnews : get_market_news_data env.alphaKey env.newsFetch = Except.ok none := by
      simp [get_market_news_data, h]
    have hB : pyEqStr (some (Json.str "market_news")) "stock_analysis" = false := rfl
    have hC : pyEqStr (some (Json.str "market_news")) "market_news" = true := rfl
    simp [executeStep, hget, hnews, exceptBind_ok, exceptPure_eq, hB, hC]

theorem c8_witness :
    (get_market_news_data none FetchResult.exn = Except.ok none) ∧
    (get_stock_analysis_data (some "") none
        (FetchResult.exn, FetchResult.exn, FetchResult.exn) = none) ∧
    (executeStep stNeutral reqHi envC8 (Json.obj [("intent", Json.str "market_news")])
       = Except.ok (stNeutral, { response := newsFailMsg, backend := "gemini" },
           [Event.marketNewsCall])) :=
  ⟨c8_missing_key_amended.1 none FetchResult.exn rfl,
   c8_missing_key_amended.2.1 (some "") none _ rfl,
   c8_missing_key_amended.2.2 stNeutral reqHi envC8 _ rfl rfl⟩

/-- C4 counterexample: an overview reply with HTTP 200 whose body contains
none of the expected keys (e.g. a rate-limit notice) still contributes an
"overview" section (with null fields) to the payload – the code has no
expected-key check for overview, contradicting the claimed iff. -/
theorem c4_counterexample :
    get_stock_analysis_data (some "k") none
      (FetchResult.ok ⟨404, Except.ok (Json.obj [])⟩,
       FetchResult.ok ⟨200, Except.ok (Json.obj [("Note", Json.str "call limit")])⟩,
       FetchResult.ok ⟨404, Except.ok (Json.obj [])⟩)
      = some (Json.obj [("overview", Json.obj
          [("market_cap", Json.null), ("pe_ratio", Json.null), ("eps", Json.null),
           ("52_week_high", Json.null), ("52_week_low", Json.null)])]) ∧
    lookupKey "MarketCapitalization" [("Note", Json.str "call limit")] = none := by
  exact ⟨rfl, rfl⟩

theorem map_fst_singleton {α β : Type} (k : α) (l : List (α × β))
    (h : l.map Prod.fst = [k]) : ∃ v, l = [(k, v)] := by
  rcases l with _ | ⟨⟨a, b⟩, rest⟩
  · simp at h
  · simp only [List.map_cons, List.cons.injEq] at h
    obtain ⟨ha, hrest⟩ := h
    have hr : rest = [] := List.map_eq_nil_iff.mp hrest
    exact ⟨b, by rw [ha, hr]⟩

theorem sec_shape {k : String} {sec : List (String × Json)} {c : Bool}
    (h : sec.map Prod.fst = (if c = true then [k] else [])) :
    (sec = [] ∧ c = false) ∨ (∃ v, sec = [(k, v)] ∧ c = true) := by
  by_cases hc : c = true
  · right
    rw [if_pos hc] at h
    obtain ⟨v, hv⟩ := map_fst_singleton k sec h
    exact ⟨v, hv, hc⟩
  · left
    rw [if_neg hc] at h
    exact ⟨List.map_eq_nil_iff.mp h, by simpa using hc⟩

theorem stockNews_mapM (l : List Json) (h : ∀ f ∈ l, ∃ fk, f = Json.obj fk) :
    ∃ out, mapMExcept stockNewsProject l = Except.ok out := by
  induction l with
  | nil => exact ⟨[], rfl⟩
  | cons f fs ih =>
    obtain ⟨fk, rfl⟩ := h f (by simp)
    obtain ⟨out, hout⟩ := ih (fun f2 hf2 => h f2 (by simp [hf2]))
    refine ⟨Json.obj [("title", jOpt (lookupKey "title" fk)),
      ("sentiment", jOpt (lookupKey "overall_sentiment_label" fk))] :: out, ?_⟩
    simp [mapMExcept, stockNewsProject, pyGet, exceptBind_ok, hout, exceptPure_eq]

theorem quoteStep_ok (qs : Int) (qkvs : List (String × Json)) (d0 : List (String × Json))
    (hq : lookupKey "Global Quote" qkvs = none ∨
      ∃ g, lookupKey "Global Quote" qkvs = some (Json.obj g)) :
    ∃ sec, quoteStep ⟨qs, Except.ok (Json.obj qkvs)⟩ d0 = Except.ok (d0 ++ sec) ∧
      sec.map Prod.fst =
        (if (qs == 200 && (lookupKey "Global Quote" qkvs).isSome) = true
         then ["quote"] else []) := by
  by_cases h200 : (qs == 200) = true
  · rcases hq with hq | ⟨g, hq⟩
    · refine ⟨[], ?_, ?_⟩
      · simp [quoteStep, h200, liftJson, exceptBind_ok, pyContains, hq, exceptPure_eq]
      · simp [hq]
    · refine ⟨[("quote", Json.obj [("price", jOpt (lookupKey "05. price" g)),
          ("change_percent", jOpt (lookupKey "10. change percent" g)),
          ("volume", jOpt (lookupKey "06. volume" g))])], ?_, ?_⟩
      · simp [quoteStep, h200, liftJson, exceptBind_ok, pyContains, hq, pyGetD, pyGet,
          exceptPure_eq]
      · simp [h200, hq]
  · refine ⟨[], ?_, ?_⟩
    · simp [quoteStep, h200, exceptPure_eq]
    · simp [h200]

theorem overviewStep_ok (os : Int) (okvs : List (String × Json)) (d1 : List (String × Json)) :
    ∃ sec, overviewStep ⟨os, Except.ok (Json.obj okvs)⟩ d1 = Except.ok (d1 ++ sec) ∧
      sec.map Prod.fst = (if (os == 200) = true then ["overview"] else []) := by
  by_cases h200 : (os == 200) = true
  · refine ⟨[("overview", Json.obj [("market_cap", jOpt (lookupKey "MarketCapitalization" okvs)),
        ("pe_ratio", jOpt (lookupKey "PERatio" okvs)), ("eps", jOpt (lookupKey "EPS" okvs)),
        ("52_week_high", jOpt (lookupKey "52WeekHigh" okvs)),
        ("52_week_low", jOpt (lookupKey "52WeekLow" okvs))])], ?_, ?_⟩
    · simp [overviewStep, h200, liftJson, exceptBind_ok, pyGet, exceptPure_eq]
    · simp [h200]
  · refine ⟨[], ?_, ?_⟩
    · simp [overviewStep, h200, exceptPure_eq]
    · simp [h200]

theorem newsStep_ok (ns : Int) (nkvs : List (String × Json)) (d2 : List (String × Json))
    (hn : lookupKey "feed" nkvs = none ∨
      ∃ fs, lookupKey "feed" nkvs = some (Json.arr fs) ∧
        ∀ f ∈ fs.take 3, ∃ fk, f = Json.obj fk) :
    ∃ sec, newsStep ⟨ns, Except.ok (Json.obj nkvs)⟩ d2 = Except.ok (d2 ++ sec) ∧
      sec.map Prod.fst =
        (if (ns == 200 && (lookupKey "feed" nkvs).isSome) = true then ["news"] else []) := by
  by_cases h200 : (ns == 200) = true
  · rcases hn with hn | ⟨fs, hn, hfs⟩
    · refine ⟨[], ?_, ?_⟩
      · simp [newsStep, h200, liftJson, exceptBind_ok, pyContains, hn, exceptPure_eq]
      · simp [hn]
    · obtain ⟨out, hout⟩ := stockNews_mapM (fs.take 3) hfs
      refine ⟨[("news", Json.arr out)], ?_, ?_⟩
      · simp [newsStep, h200, liftJson, exceptBind_ok, pyContains, hn, pyGetD, pySlice3,
          hout, exceptPure_eq]
      · simp [h200, hn]
  · refine ⟨[], ?_, ?_⟩
    · simp [newsStep, h200, exceptPure_eq]
    · simp [h200]

/-- C4 (amended): when all three fetches complete without raising (and the
bodies are provider-shaped JSON objects), the quote section is present iff
quote status is 200 AND the body has the "Global Quote" key; the news section
is present iff news status is 200 AND the body has the "feed" key; but the
overview section is present iff the overview status is 200 alone – no key is
required, a keyless body yields an overview section of null fields.  A truthy
partial payload is passed to the stock Synthesizer rather than treated as
failure. -/
theorem c4_sections_amended :
    (∀ (apiKey : Option String) (ticker : Option Json) (qs os ns : Int)
        (qkvs okvs nkvs : List (String × Json)),
      pyKeyTruthy apiKey = true →
      (lookupKey "Global Quote" qkvs = none ∨
        ∃ g, lookupKey "Global Quote" qkvs = some (Json.obj g)) →
      (lookupKey "feed" nkvs = none ∨
        ∃ fs, lookupKey "feed" nkvs = some (Json.arr fs) ∧
          ∀ f ∈ fs.take 3, ∃ fk, f = Json.obj fk) →
      ∃ pl, get_stock_analysis_data apiKey ticker
          (FetchResult.ok ⟨qs, Except.ok (Json.obj qkvs)⟩,
           FetchResult.ok ⟨os, Except.ok (Json.obj okvs)⟩,
           FetchResult.ok ⟨ns, Except.ok (Json.obj nkvs)⟩) = some (Json.obj pl) ∧
        (lookupKey "quote" pl).isSome
          = (qs == 200 && (lookupKey "Global Quote" qkvs).isSome) ∧
        (lookupKey "overview" pl).isSome = (os == 200) ∧
        (lookupKey "news" pl).isSome = (ns == 200 && (lookupKey "feed" nkvs).isSome)) ∧
    (∀ (st : GlobalState) (req : ChatRequest) (env : Env)
        (ekvs : List (String × Json)) (d : Json),
      lookupKey "type" ekvs = some (Json.str "ticker") →
      get_stock_analysis_data env.alphaKey (lookupKey "value" ekvs)
          (env.stockFetch (lookupKey "value" ekvs)) = some d →
      pyTruthy d = true →
      executeStep st req env (Json.obj [("intent", Json.str "stock_analysis"),
          ("entities", Json.arr [Json.obj ekvs])])
        = Except.ok
            (⟨st.planner_response,
              env.gemini.chat (stockSynthMessages env.pylib (lookupKey "value" ekvs) d)
                temperatureHalf 1024,
              st.final_response_token⟩,
             ⟨env.gemini.chat (stockSynthMessages env.pylib (lookupKey "value" ekvs) d)
                temperatureHalf 1024,
              "gemini"⟩,
             [Event.stockDataCall (lookupKey "value" ekvs)])) := by
  constructor
  · intro apiKey ticker qs os ns qkvs okvs nkvs hkey hq hn
    obtain ⟨qsec, hq1, hq2⟩ := quoteStep_ok qs qkvs [] hq
    obtain ⟨osec, ho1, ho2⟩ := overviewStep_ok os okvs qsec
    obtain ⟨nsec, hn1, hn2⟩ := newsStep_ok ns nkvs (qsec ++ osec) hn
    refine ⟨(qsec ++ osec) ++ nsec, ?_, ?_, ?_, ?_⟩
    · simp only [List.nil_append] at hq1
      simp [get_stock_analysis_data, hkey, stockGatherBody, exceptBind_ok, exceptPure_eq,
        hq1, ho1, hn1]
    · rcases sec_shape hq2 with ⟨hq0, hqc⟩ | ⟨v1, hq0, hqc⟩ <;>
        rcases sec_shape ho2 with ⟨ho0, hoc⟩ | ⟨v2, ho0, hoc⟩ <;>
          rcases sec_shape hn2 with ⟨hn0, hnc⟩ | ⟨v3, hn0, hnc⟩ <;>
            subst hq0 <;> subst ho0 <;> subst hn0 <;> simp [lookupKey, hqc]
    · rcases sec_shape hq2 with ⟨hq0, hqc⟩ | ⟨v1, hq0, hqc⟩ <;>
        rcases sec_shape ho2 with ⟨ho0, hoc⟩ | ⟨v2, ho0, hoc⟩ <;>
          rcases sec_shape hn2 with ⟨hn0, hnc⟩ | ⟨v3, hn0, hnc⟩ <;>
            subst hq0 <;> subst ho0 <;> subst hn0 <;> simp [lookupKey, hoc]
    · rcases sec_shape hq2 with ⟨hq0, hqc⟩ | ⟨v1, hq0, hqc⟩ <;>
        rcases sec_shape ho2 with ⟨ho0, hoc⟩ | ⟨v2, ho0, hoc⟩ <;>
          rcases sec_shape hn2 with ⟨hn0, hnc⟩ | ⟨v3, hn0, hnc⟩ <;>
            subst hq0 <;> subst ho0 <;> subst hn0 <;> simp [lookupKey, hnc]
  · intro st req env ekvs d hty hsd hd
    have hget : pyGet (Json.obj [("intent", Json.str "stock_analysis"),
        ("entities", Json.arr [Json.obj ekvs])]) "intent"
        = Except.ok (some (Json.str "stock_analysis")) := rfl
    have hents : pyGetD (Json.obj [("intent", Json.str "stock_analysis"),
        ("entities", Json.arr [Json.obj ekvs])]) "entities" (Json.arr [])
        = Except.ok (Json.arr [Json.obj ekvs]) := rfl
    have hA : pyEqStr (some (Json.str "stock_analysis")) "stock_analysis" = true := rfl
    have hty3 : pyEqStr (lookupKey "type" ekvs) "ticker" = true := by rw [hty]; rfl
    have harr : pyTruthy (Json.arr [Json.obj ekvs]) = true := rfl
    have hIdx : pyIndex0 (Json.arr [Json.obj ekvs]) = Except.ok (Json.obj ekvs) := rfl
    have hTy0 : pyGet (Json.obj ekvs) "type" = Except.ok (lookupKey "type" ekvs) := rfl
    have hVal : pyGet (Json.obj ekvs) "value" = Except.ok (lookupKey "value" ekvs) := rfl
    simp [executeStep, hget, hents, exceptBind_ok, exceptPure_eq, hA, hty3, harr, hIdx,
      hTy0, hVal, hsd, hd]

theorem c4_witness :
    (∃ pl, get_stock_analysis_data (some "k") none
        (FetchResult.ok ⟨404, Except.ok (Json.obj [])⟩,
         FetchResult.ok ⟨200, Except.ok (Json.obj [])⟩,
         FetchResult.ok ⟨404, Except.ok (Json.obj [])⟩) = some (Json.obj pl) ∧
      (lookupKey "quote" pl).isSome
        = ((404 : Int) == 200 && (lookupKey "Global Quote" ([] : List (String × Json))).isSome) ∧
      (lookupKey "overview" pl).isSome = ((200 : Int) == 200) ∧
      (lookupKey "news" pl).isSome
        = ((404 : Int) == 200 && (lookupKey "feed" ([] : List (String × Json))).isSome)) ∧
    (executeStep stNeutral reqHi envC4w (Json.obj [("intent", Json.str "stock_analysis"),
        ("entities", Json.arr [Json.obj [("type", Json.str "ticker"),
          ("value", Json.str "TSLA")]])])
      = Except.ok
          (⟨stNeutral.planner_response,
            envC4w.gemini.chat (stockSynthMessages envC4w.pylib
              (lookupKey "value" [("type", Json.str "ticker"), ("value", Json.str "TSLA")])
              (Json.obj [("overview", Json.obj [("market_cap", Json.null),
                ("pe_ratio", Json.null), ("eps", Json.null), ("52_week_high", Json.null),
                ("52_week_low", Json.null)])])) temperatureHalf 1024,
            stNeutral.final_response_token⟩,
           ⟨envC4w.gemini.chat (stockSynthMessages envC4w.pylib
              (lookupKey "value" [("type", Json.str "ticker"), ("value", Json.str "TSLA")])
              (Json.obj [("overview", Json.obj [("market_cap", Json.null),
                ("pe_ratio", Json.null), ("eps", Json.null), ("52_week_high", Json.null),
                ("52_week_low", Json.null)])])) temperatureHalf 1024,
            "gemini"⟩,
           [Event.stockDataCall
             (lookupKey "value" [("type", Json.str "ticker"), ("value", Json.str "TSLA")])])) :=
  ⟨c4_sections_amended.1 (some "k") none 404 200 404 [] [] [] rfl (Or.inl rfl) (Or.inl rfl),
   c4_sections_amended.2 stNeutral reqHi envC4w
     [("type", Json.str "ticker"), ("value", Json.str "TSLA")]
     (Json.obj [("overview", Json.obj [("market_cap", Json.null), ("pe_ratio", Json.null),
       ("eps", Json.null), ("52_week_high", Json.null), ("52_week_low", Json.null)])])
     rfl rfl rfl⟩
